import Mathlib

/-!
Shallow embedding of the arghus call-screening observer (React Native app).

The repository contains several iterations of the same observer UI:
* `src/mobile/App.tsx` — the final variant, with the seven-status tagged
  union `CallState` and two broadcast handlers (`state`, `transcript`) on
  the supabase channel `"live"`;
* `src/unnamed/part_001` — an earlier variant with the four-status
  `Status` type, separate `threatData` state, and three broadcast handlers
  (`status`, `transcript`, `threat`) on the channel `"live"`;
* `src/unnamed/part_000` — an earlier variant with channels `"live_call"`
  and `"public:active_calls"`.

Each React `useState` cell becomes a field of an explicit observer-state
record, and each broadcast handler becomes a function from observer state
and event payload to the next observer state, exactly mirroring the
`setX` calls the handler performs.
-/

namespace Arghus

/-- The seven-value `Status` union of `src/mobile/App.tsx` line 7. -/
inductive Status where
  | IDLE
  | RINGING
  | ANALYZING
  | THREAT_DETECTED
  | CHALLENGING
  | VERIFIED
  | FAILED
deriving DecidableEq, Repr

/-- The string literal each `Status` member stands for in the TypeScript
union (`App.tsx` line 7). -/
def statusName : Status → String
  | Status.IDLE => "IDLE"
  | Status.RINGING => "RINGING"
  | Status.ANALYZING => "ANALYZING"
  | Status.THREAT_DETECTED => "THREAT_DETECTED"
  | Status.CHALLENGING => "CHALLENGING"
  | Status.VERIFIED => "VERIFIED"
  | Status.FAILED => "FAILED"

/-- `ThreatPayload` of `App.tsx` lines 9–14: `{transcript, reason,
confidence, name?}`. -/
structure ThreatPayload where
  transcript : String
  reason : String
  confidence : Nat
  name : Option String
deriving DecidableEq, Repr

/-- `ChallengePayload` of `App.tsx` lines 16–20: `{name, confidence,
question}`. -/
structure ChallengePayload where
  name : String
  confidence : Nat
  question : String
deriving DecidableEq, Repr

/-- The `CallState` discriminated union of `App.tsx` lines 22–29: a status
tag together with the payload data that status carries. -/
inductive CallState where
  | idle
  | ringing
  | analyzing
  | threatDetected (data : ThreatPayload)
  | challenging (data : ChallengePayload)
  | verified (name : String)
  | failed (name : String)
deriving DecidableEq, Repr

/-- The `status` discriminant of a `CallState` value. -/
def CallState.status : CallState → Status
  | CallState.idle => Status.IDLE
  | CallState.ringing => Status.RINGING
  | CallState.analyzing => Status.ANALYZING
  | CallState.threatDetected _ => Status.THREAT_DETECTED
  | CallState.challenging _ => Status.CHALLENGING
  | CallState.verified _ => Status.VERIFIED
  | CallState.failed _ => Status.FAILED

/-- The two `useState` cells of `MainPage` (`App.tsx` lines 32–33):
`callState` and `transcript`. -/
structure ObserverState where
  callState : CallState
  transcript : String
deriving DecidableEq, Repr

/-- `useState` initial values of `MainPage` (`App.tsx` lines 32–33):
`{status: "IDLE", data: null}` and `""`. -/
def initialObserver : ObserverState :=
  { callState := CallState.idle, transcript := "" }

/-- The `state` broadcast handler (`App.tsx` lines 38–47):
`setCallState(data.payload)`, and if the payload status is `IDLE` also
`setTranscript("")`. -/
def applyState (o : ObserverState) (payload : CallState) : ObserverState :=
  { callState := payload
    transcript := if payload.status = Status.IDLE then "" else o.transcript }

/-- The `transcript` broadcast handler (`App.tsx` lines 49–54) as its
text reads: return unchanged when `callState.status` is `THREAT_DETECTED`
or `CHALLENGING`, otherwise `setTranscript(prev => prev + "\n" + text)`.
Caution: this takes the guard at face value, reading the current
`callState`; at runtime the handler, registered in `useEffect(..., [])`,
closes over the mount-time `callState` instead — see
`applyTranscriptRuntime` below for the faithful runtime semantics. The
two agree wherever the current status is not `THREAT_DETECTED` or
`CHALLENGING` (in particular at `ANALYZING`), and whenever both take the
append branch. -/
def applyTranscript (o : ObserverState) (text : String) : ObserverState :=
  if o.callState.status = Status.THREAT_DETECTED ∨
      o.callState.status = Status.CHALLENGING then o
  else { o with transcript := o.transcript ++ "\n" ++ text }

/-- The `transcript` broadcast handler as it actually runs: it is
registered once in `useEffect(..., [])` (`App.tsx` lines 35–59), so the
`callState` read by the guard at line 51 is the value captured at mount
time (`captured`), not the current state; only the functional updater
`prev => prev + "\n" + text` reads the current transcript. -/
def applyTranscriptRuntime (captured : CallState) (o : ObserverState)
    (text : String) : ObserverState :=
  if captured.status = Status.THREAT_DETECTED ∨
      captured.status = Status.CHALLENGING then o
  else { o with transcript := o.transcript ++ "\n" ++ text }

/-- The mount-time `callState` the transcript handler captures: the
`useState` initial value `{status: "IDLE", data: null}` (`App.tsx` line
32), since the effect with dependency list `[]` runs only on the first
render. -/
def mountCallState : CallState := CallState.idle

/-- The two broadcast event kinds `MainPage` subscribes to
(`App.tsx` lines 38–54): `state` with a `CallState` payload and
`transcript` with a `{text}` payload. -/
inductive BroadcastEvent where
  | state (payload : CallState)
  | transcript (text : String)
deriving DecidableEq, Repr

/-- Dispatch of one received broadcast event to its handler. -/
def applyEvent (o : ObserverState) (e : BroadcastEvent) : ObserverState :=
  match e with
  | BroadcastEvent.state p => applyState o p
  | BroadcastEvent.transcript t => applyTranscript o t

/-- A realtime subscription as made in the source: a channel name and the
broadcast event name listened for. -/
structure Subscription where
  channel : String
  event : String
deriving DecidableEq, Repr

/-- The channel name `MainPage` opens (`App.tsx` line 36):
`supabase.channel("live")` — a fixed string, not derived from any session
identifier. -/
def mainPageChannelName : String := "live"

/-- The two subscriptions `MainPage` makes (`App.tsx` lines 38–54), both
on the channel `"live"`. -/
def mainPageSubscriptions : List Subscription :=
  [ { channel := "live", event := "state" },
    { channel := "live", event := "transcript" } ]

/-- Broadcast delivery: a broadcast published on `pubChannel` with event
name `pubEvent` reaches a subscription exactly when both names match. -/
def broadcastDelivered (pubChannel pubEvent : String) (s : Subscription) : Bool :=
  pubChannel == s.channel && pubEvent == s.event

/-- The view `renderContent` produces, one constructor per distinct branch
of `App.tsx` lines 61–193, recording the data the branch displays. -/
inductive RenderedView where
  | idleView
  | activeCallView (processing : Bool) (shownTranscript : String)
  | threatView (data : ThreatPayload)
  | challengeView (data : ChallengePayload)
  | verifiedView (name : String)
  | failedView (name : String)
deriving DecidableEq, Repr

/-- `renderContent` (`App.tsx` lines 61–193): destructures `{status, data}`
from `callState` and returns the branch view for each of the seven
statuses; the trailing `return null` is reachable only if no status
branch matched, which the exhaustive match shows cannot happen for a
well-typed `CallState`. `RINGING`/`ANALYZING` display the `transcript`
state cell; the other branches display only the payload data. -/
def renderContent (cs : CallState) (t : String) : Option RenderedView :=
  match cs with
  | CallState.idle => some RenderedView.idleView
  | CallState.ringing => some (RenderedView.activeCallView false t)
  | CallState.analyzing => some (RenderedView.activeCallView true t)
  | CallState.threatDetected d => some (RenderedView.threatView d)
  | CallState.challenging d => some (RenderedView.challengeView d)
  | CallState.verified n => some (RenderedView.verifiedView n)
  | CallState.failed n => some (RenderedView.failedView n)

/-- JavaScript `String.replace("_", " ")` with a string pattern: replace
only the first occurrence of the underscore. -/
def replaceFirstUnderscoreAux : List Char → List Char
  | [] => []
  | c :: cs => if c = '_' then ' ' :: cs else c :: replaceFirstUnderscoreAux cs

/-- The header badge text (`App.tsx` line 202):
`callState.status.replace("_", " ")`. -/
def badgeText (s : Status) : String :=
  String.mk (replaceFirstUnderscoreAux (statusName s).data)

/-- Field names of the TypeScript `ChallengePayload` type
(`App.tsx` lines 16–20). -/
def challengePayloadFields : List String := ["name", "confidence", "question"]

/-- Field names of the TypeScript `ThreatPayload` type
(`App.tsx` lines 9–14). -/
def threatPayloadFields : List String := ["transcript", "reason", "confidence", "name"]

/-- Field names of the payload the `VERIFIED` arm of `CallState` carries
(`App.tsx` line 28). -/
def verifiedPayloadFields : List String := ["name"]

/-- Field names of the payload the `FAILED` arm of `CallState` carries
(`App.tsx` line 29). -/
def failedPayloadFields : List String := ["name"]

/-- Field names of the `transcript` broadcast payload as read by the
handler (`App.tsx` line 52): only `data.payload.text`. -/
def transcriptEventPayloadFields : List String := ["text"]

end Arghus

namespace ArghusV0

/-- The channel names the `src/unnamed/part_000` variant opens (lines
13 and 21): `supabase.channel("live_call")` and
`supabase.channel("public:active_calls")` — again fixed strings. -/
def appV0ChannelNames : List String := ["live_call", "public:active_calls"]

end ArghusV0

namespace ArghusV1

/-- The four-value `Status` union of `src/unnamed/part_001` line 7. -/
inductive StatusV1 where
  | IDLE
  | RINGING
  | ANALYZING
  | THREAT_DETECTED
deriving DecidableEq, Repr

/-- `ThreatData` of `src/unnamed/part_001` lines 8–14: `{question,
transcript, reason, confidence, name?}`. -/
structure ThreatData where
  question : String
  transcript : String
  reason : String
  confidence : Nat
  name : Option String
deriving DecidableEq, Repr

/-- The three `useState` cells of `MainPage` in `src/unnamed/part_001`
lines 17–19: `status`, `threatData` and `transcript`. -/
structure ObserverStateV1 where
  status : StatusV1
  threatData : Option ThreatData
  transcript : String
deriving DecidableEq, Repr

/-- Initial `useState` values in `src/unnamed/part_001` lines 17–19. -/
def initialObserverV1 : ObserverStateV1 :=
  { status := StatusV1.IDLE, threatData := none, transcript := "" }

/-- The `status` broadcast handler (`src/unnamed/part_001` lines 24–32):
`setStatus(data.payload.status)`, and if the payload status is `IDLE` also
`setTranscript("")` and `setThreatData(null)`. -/
def applyStatusV1 (o : ObserverStateV1) (s : StatusV1) : ObserverStateV1 :=
  { status := s
    transcript := if s = StatusV1.IDLE then "" else o.transcript
    threatData := if s = StatusV1.IDLE then none else o.threatData }

/-- The `transcript` broadcast handler (`src/unnamed/part_001` lines
34–39) as its text reads: return unchanged when `status` is
`THREAT_DETECTED`, otherwise `setTranscript(data.payload.text)` — the
fragment replaces the stored transcript. Caution: this takes the guard at
face value, reading the current `status`; at runtime the handler,
registered in `useEffect(..., [])`, closes over the mount-time `status`
instead — see `applyTranscriptRuntimeV1` below. The two agree wherever
the current status is not `THREAT_DETECTED` (in particular at
`ANALYZING`). -/
def applyTranscriptV1 (o : ObserverStateV1) (text : String) : ObserverStateV1 :=
  if o.status = StatusV1.THREAT_DETECTED then o
  else { o with transcript := text }

/-- The part_001 `transcript` handler as it actually runs: registered
once in `useEffect(..., [])` (`src/unnamed/part_001` lines 21–50), so the
`status` read by the guard at line 36 is the mount-time captured value
(`captured`), not the current status. -/
def applyTranscriptRuntimeV1 (captured : StatusV1) (o : ObserverStateV1)
    (text : String) : ObserverStateV1 :=
  if captured = StatusV1.THREAT_DETECTED then o
  else { o with transcript := text }

/-- The mount-time `status` the part_001 transcript handler captures: the
`useState` initial value `"IDLE"` (`src/unnamed/part_001` line 17). -/
def mountStatusV1 : StatusV1 := StatusV1.IDLE

/-- The `threat` broadcast handler (`src/unnamed/part_001` lines 41–46):
unconditionally `setStatus("THREAT_DETECTED")` and
`setThreatData(data.payload)`. -/
def applyThreatV1 (o : ObserverStateV1) (d : ThreatData) : ObserverStateV1 :=
  { o with status := StatusV1.THREAT_DETECTED, threatData := some d }

end ArghusV1

/-- C1 (code bug): the claim — and the source's own comment "Ignore
further transcripts once threat detected" — says transcript updates are
never applied once past ANALYZING, but the guard never fires at runtime:
the handler registered in `useEffect(..., [])` closes over the mount-time
IDLE call state, so a fragment delivered while the current state is
THREAT_DETECTED is still applied — appended in `App.tsx`
("t" becomes "t\n" + "hi") and replacing the stored transcript in
part_001 ("t" becomes "hi"). -/
theorem transcriptAppliedPastAnalyzing_bug :
    (Arghus.applyTranscriptRuntime Arghus.mountCallState
        ⟨Arghus.CallState.threatDetected ⟨"t", "financial urgency", 85, some "David"⟩, "t"⟩
        "hi").transcript = "t" ++ "\n" ++ "hi" ∧
    (ArghusV1.applyTranscriptRuntimeV1 ArghusV1.mountStatusV1
        ⟨ArghusV1.StatusV1.THREAT_DETECTED, none, "t"⟩ "hi").transcript = "hi" := by
  decide

/-- C3 counterexample: a second threat-verdict event replaces the stored
verdict data instead of being rejected. -/
theorem secondVerdictApplied_counterexample :
    (ArghusV1.applyThreatV1 (ArghusV1.applyThreatV1 ArghusV1.initialObserverV1
        ⟨"Q1", "t1", "financial urgency", 85, some "David"⟩)
        ⟨"Q2", "t2", "voice mismatch", 90, some "Eve"⟩).threatData ≠
      some ⟨"Q1", "t1", "financial urgency", 85, some "David"⟩ := by decide

/-- C3 amended: every threat broadcast unconditionally sets the status to
THREAT_DETECTED and stores its own payload as the verdict data — later
verdicts replace earlier ones (last writer wins), they are not discarded. -/
theorem threatVerdictLastWriterWins (o : ArghusV1.ObserverStateV1) (d : ArghusV1.ThreatData) :
    (ArghusV1.applyThreatV1 o d).threatData = some d ∧
    (ArghusV1.applyThreatV1 o d).status = ArghusV1.StatusV1.THREAT_DETECTED :=
  ⟨rfl, rfl⟩

/-- C4 counterexample: in the part_001 variant, a transcript fragment
applied while ANALYZING replaces the stored transcript — the previous
transcript "hello" is not even a prefix of the result. -/
theorem transcriptReplaced_counterexample :
    (ArghusV1.applyTranscriptV1 ⟨ArghusV1.StatusV1.ANALYZING, none, "hello"⟩ "x").transcript = "x" ∧
    String.isPrefixOf "hello"
      (ArghusV1.applyTranscriptV1 ⟨ArghusV1.StatusV1.ANALYZING, none, "hello"⟩ "x").transcript
      = false := by decide

/-- C4 amended: only the final `App.tsx` variant is append-only — each
transcript event either leaves the transcript unchanged (guarded states)
or extends it with a newline and the fragment; the part_001 variant
replaces the stored transcript with the fragment instead. -/
theorem transcriptAppendOnlyMainPage (o : Arghus.ObserverState) (text : String) :
    (Arghus.applyTranscript o text).transcript = o.transcript ∨
    (Arghus.applyTranscript o text).transcript = o.transcript ++ "\n" ++ text := by
  unfold Arghus.applyTranscript
  split
  · exact Or.inl rfl
  · exact Or.inr rfl

/-- C5 counterexample: transcript fragments carry no sequence number, and
delivering the same fragment twice changes the stored transcript again —
the duplicate is appended, not dropped. -/
theorem duplicateFragmentAppended_counterexample :
    (Arghus.applyTranscript (Arghus.applyTranscript ⟨Arghus.CallState.analyzing, "t"⟩ "hi") "hi").transcript ≠
      (Arghus.applyTranscript ⟨Arghus.CallState.analyzing, "t"⟩ "hi").transcript := by decide

/-- C5 amended: a transcript fragment payload is only a text string (no
sequence number), and while the observed state is ANALYZING every
delivered fragment — duplicate or not — is appended with a newline
separator, so re-delivery is not idempotent. -/
theorem fragmentAlwaysAppendedWhileAnalyzing (o : Arghus.ObserverState) (text : String)
    (h : o.callState.status = Arghus.Status.ANALYZING) :
    (Arghus.applyTranscript o text).transcript = o.transcript ++ "\n" ++ text := by
  unfold Arghus.applyTranscript
  rw [if_neg]
  rintro (h1 | h1) <;> rw [h] at h1 <;> exact absurd h1 (by decide)

/-- Witness for the amended C5 at a concrete ANALYZING observer state. -/
theorem fragmentAlwaysAppendedWhileAnalyzing_witness :
    (Arghus.applyTranscript ⟨Arghus.CallState.analyzing, "t"⟩ "hi").transcript = "t" ++ "\n" ++ "hi" :=
  fragmentAlwaysAppendedWhileAnalyzing ⟨Arghus.CallState.analyzing, "t"⟩ "hi" rfl

/-- C6 counterexample: the first threat event records the name "Alice",
and a later threat event with the different name "Mallory" overwrites it —
the claimed identity is not first-writer-wins. -/
theorem claimedIdentityOverwritten_counterexample :
    ((ArghusV1.applyThreatV1 ArghusV1.initialObserverV1
        ⟨"QA", "ta", "ra", 80, some "Alice"⟩).threatData.map ArghusV1.ThreatData.name
      = some (some "Alice")) ∧
    ((ArghusV1.applyThreatV1 (ArghusV1.applyThreatV1 ArghusV1.initialObserverV1
        ⟨"QA", "ta", "ra", 80, some "Alice"⟩)
        ⟨"QB", "tb", "rb", 95, some "Mallory"⟩).threatData.map ArghusV1.ThreatData.name
      ≠ some (some "Alice")) := by decide

/-- C6 amended: the stored name always comes from the latest threat event:
after any threat broadcast the stored verdict name equals that event's
name, whatever name was recorded before (last writer wins). -/
theorem claimedIdentityLastWriterWins (o : ArghusV1.ObserverStateV1) (d : ArghusV1.ThreatData) :
    (ArghusV1.applyThreatV1 o d).threatData.map ArghusV1.ThreatData.name = some d.name := rfl

/-- C7 counterexample: every subscription `MainPage` makes is on the fixed
shared channel "live" — no subscription mentions a session identifier —
and a `state` broadcast published on that channel is delivered to the
`state` subscription and changes the observer's state, whichever call
produced it. -/
theorem sharedChannelLeakage_counterexample :
    Arghus.mainPageSubscriptions.all
      (fun s => s.channel == Arghus.mainPageChannelName) = true ∧
    Arghus.broadcastDelivered Arghus.mainPageChannelName "state"
      { channel := Arghus.mainPageChannelName, event := "state" } = true ∧
    (Arghus.applyEvent Arghus.initialObserver
        (Arghus.BroadcastEvent.state Arghus.CallState.ringing)).callState ≠
      Arghus.initialObserver.callState := by decide

/-- C7 amended: all realtime subscriptions use fixed, hard-coded channel
names ("live" in App.tsx; "live_call" and "public:active_calls" in
part_000); no subscription is scoped to a sessionId, so every observer of
the shared channel receives the same broadcasts regardless of which call
they concern. -/
theorem allSubscriptionsOnFixedGlobalChannel :
    Arghus.mainPageSubscriptions.map Arghus.Subscription.channel =
      [Arghus.mainPageChannelName, Arghus.mainPageChannelName] ∧
    Arghus.mainPageChannelName = "live" ∧
    ArghusV0.appV0ChannelNames = ["live_call", "public:active_calls"] := by
  refine ⟨rfl, rfl, rfl⟩

/-- C8: a `ChallengePayload` is determined by exactly its `name`,
`confidence` and `question` fields, and no event payload type of
`App.tsx` has an `expectedAnswerHash` field. -/
theorem publicPayloadOmitsAnswerHash :
    (∀ p : Arghus.ChallengePayload, p = ⟨p.name, p.confidence, p.question⟩) ∧
    Arghus.challengePayloadFields = ["name", "confidence", "question"] ∧
    "expectedAnswerHash" ∉ Arghus.challengePayloadFields ∧
    "expectedAnswerHash" ∉ Arghus.threatPayloadFields ∧
    "expectedAnswerHash" ∉ Arghus.verifiedPayloadFields ∧
    "expectedAnswerHash" ∉ Arghus.failedPayloadFields ∧
    "expectedAnswerHash" ∉ Arghus.transcriptEventPayloadFields := by
  refine ⟨fun p => ?_, rfl, by decide, by decide, by decide, by decide, by decide⟩
  cases p
  rfl

/-- C9: a `state` broadcast whose payload status is IDLE resets the
observer to the initial state (call state IDLE, empty transcript); in the
part_001 variant an IDLE status broadcast also clears the threat data. -/
theorem idleBroadcastResets :
    (∀ (o : Arghus.ObserverState) (p : Arghus.CallState),
      p.status = Arghus.Status.IDLE →
      Arghus.applyState o p = Arghus.initialObserver) ∧
    (∀ o : ArghusV1.ObserverStateV1,
      ArghusV1.applyStatusV1 o ArghusV1.StatusV1.IDLE = ArghusV1.initialObserverV1) := by
  constructor
  · intro o p hp
    cases p <;> first | rfl | simp [Arghus.CallState.status] at hp
  · intro o
    rfl

/-- Witness for C9 at a concrete non-initial observer state. -/
theorem idleBroadcastResets_witness :
    Arghus.applyState ⟨Arghus.CallState.verified "Ann", "long transcript"⟩
      Arghus.CallState.idle = Arghus.initialObserver :=
  idleBroadcastResets.1 ⟨Arghus.CallState.verified "Ann", "long transcript"⟩
    Arghus.CallState.idle rfl

/-- C10: `renderContent` returns a non-null view for every value of the
seven-status `CallState` union, as a function of only the call state and
the transcript, and the header badge text is the status name with its
underscore replaced by a space. -/
theorem renderTotalAndBadgeText :
    (∀ (cs : Arghus.CallState) (t : String),
      (Arghus.renderContent cs t).isSome = true) ∧
    Arghus.badgeText Arghus.Status.IDLE = "IDLE" ∧
    Arghus.badgeText Arghus.Status.RINGING = "RINGING" ∧
    Arghus.badgeText Arghus.Status.ANALYZING = "ANALYZING" ∧
    Arghus.badgeText Arghus.Status.THREAT_DETECTED = "THREAT DETECTED" ∧
    Arghus.badgeText Arghus.Status.CHALLENGING = "CHALLENGING" ∧
    Arghus.badgeText Arghus.Status.VERIFIED = "VERIFIED" ∧
    Arghus.badgeText Arghus.Status.FAILED = "FAILED" := by
  refine ⟨fun cs t => ?_, rfl, rfl, rfl, rfl, rfl, rfl, rfl⟩
  cases cs <;> rfl
